import Mathlib

/-!
Verification of the command/response correlation protocol implemented in
tools/rider_pi_tool.py.

The embedding models Python strings as lists of characters (`Str`), Python
values (as they occur in this program: JSON-like data and result
dictionaries) as the inductive type `PyVal`, and the external collaborators
as explicit inputs:

* the `json` library's `loads` is an abstract decoding function
  `jl : Str → Option PyVal` (`Option.none` models a raised
  `json.JSONDecodeError`); concrete instantiations used in witnesses agree
  with real JSON decoding on every string they are applied to;
* the HTTP transport (`requests.post` / `requests.get` against the Discord
  API) is modelled by the outcome values the program inspects: a
  `SendOutcome` for the single send of a dispatch, and a list of poll
  outcomes (`Option (List Str)`, where `Option.none` models a non-200
  status or a network exception, and `some msgs` the message contents of a
  fetched batch).  The length of the poll list abstracts the number of
  iterations the 1.5s-sleep loop performs before the COMMAND_TIMEOUT
  deadline elapses;
* wall-clock time enters only through the millisecond timestamp used to
  build the request id, supplied as `nowMs` in the dispatch environment.

Mutable-dictionary behaviour (the `.copy()` calls guarding the action
registry) is modelled separately by a small store-based semantics
(`resolveHeap`) in which argument dictionaries are heap objects addressed
by position.
-/

/-- Python strings, modelled as lists of characters. -/
abbrev Str := List Char

/-- The Python values this program manipulates: `None`, booleans, integers,
floats (modelled as rationals), strings, lists and dictionaries
(association lists in insertion order, as Python preserves it). -/
inductive PyVal where
  | null : PyVal
  | bool : Bool → PyVal
  | int : Int → PyVal
  | float : ℚ → PyVal
  | str : Str → PyVal
  | list : List PyVal → PyVal
  | dict : List (Str × PyVal) → PyVal

/-- `d.get(k)` on a Python dict: the value at the first matching key. -/
def dictGet : List (Str × PyVal) → Str → Option PyVal
  | [], _ => Option.none
  | (k0, v0) :: rest, k => if k0 = k then some v0 else dictGet rest k

/-- `d[k] = v` on a Python dict: replace the value in place when the key is
present, append the pair otherwise. -/
def dictSet : List (Str × PyVal) → Str → PyVal → List (Str × PyVal)
  | [], k, v => [(k, v)]
  | (k0, v0) :: rest, k, v =>
    if k0 = k then (k0, v) :: rest else (k0, v0) :: dictSet rest k v

/-- `result["status"]` read as a string, when the result is a dict and the
value is a string. -/
def statusStrOf (v : PyVal) : Option Str :=
  match v with
  | PyVal.dict es =>
    match dictGet es "status".data with
    | some (PyVal.str s) => some s
    | _ => Option.none
  | _ => Option.none

/-- An integer field of a result dict. -/
def fieldInt (v : PyVal) (k : Str) : Option Int :=
  match v with
  | PyVal.dict es =>
    match dictGet es k with
    | some (PyVal.int n) => some n
    | _ => Option.none
  | _ => Option.none

/-- The "index" recorded in a sequence step result. -/
def resultIndexOf (v : PyVal) : Option Int := fieldInt v "index".data

/-- The "action" recorded in a sequence step result, as a string. -/
def resultActionOf (v : PyVal) : Option Str :=
  match v with
  | PyVal.dict es =>
    match dictGet es "action".data with
    | some (PyVal.str s) => some s
    | _ => Option.none
  | _ => Option.none

/-- `result.get("status") == "success"` (line 273 of the source).  The
result is a dict whenever this is evaluated (the two item assignments just
before it succeeded), so the non-dict fallback is unreachable there. -/
def statusIsSuccess (v : PyVal) : Bool :=
  match statusStrOf v with
  | some s => s = "success".data
  | Option.none => false

/-- `result[k] = x` on an arbitrary Python value: only dicts accept a string
key; on any other value Python raises (`TypeError`), modelled as `.error`. -/
def pySetItem (v : PyVal) (k : Str) (x : PyVal) : Except String PyVal :=
  match v with
  | PyVal.dict es => Except.ok (PyVal.dict (dictSet es k x))
  | _ => Except.error "TypeError: item assignment on a non-dict result"

/-- First index `i ≥ start` at which `pat` occurs in `hay`, Python
`hay.find(pat, start)` before the `-1` encoding. -/
def findSubFrom (hay pat : Str) (start : Nat) : Option Nat :=
  (List.range (hay.length + 1)).find?
    (fun i => decide (start ≤ i) && List.isPrefixOf pat (hay.drop i))

/-- Python `hay.find(pat, start)`: first occurrence index, or `-1`. -/
def pyFind (hay pat : Str) (start : Nat) : Int :=
  match findSubFrom hay pat start with
  | some i => Int.ofNat i
  | Option.none => -1

/-- Python `pat in hay` on strings. -/
def isSubstr (pat hay : Str) : Bool := (findSubFrom hay pat 0).isSome

/-- Python slice `s[a:b]` for a nonnegative start, where `b` may be negative
(counted from the end) as produced by a failed `find`. -/
def pySlice (s : Str) (a : Nat) (b : Int) : Str :=
  let stop : Nat := if b < 0 then ((s.length : Int) + b).toNat else b.toNat
  (s.take stop).drop a

/-- Python `s.strip()`. -/
def pyStrip (s : Str) : Str :=
  ((s.dropWhile Char.isWhitespace).reverse.dropWhile Char.isWhitespace).reverse

/-- `", ".join(keys)`. -/
def joinComma : List Str → Str
  | [] => []
  | [k] => k
  | k :: rest => k ++ ", ".data ++ joinComma rest

/-- MCP_COMMAND_TIMEOUT: the poll deadline in seconds (env default "60").
Only its appearance in the timeout message matters to the embedding; the
number of poll iterations it allows is abstracted by the poll list. -/
def COMMAND_TIMEOUT : Nat := 60

/-- One entry of ACTION_MAP (lines 68-142): external tool name, default
arguments, description, and the declared parameter names ("params", absent
for parameterless actions; the executor does not read it). -/
structure ActionEntry where
  tool : Str
  args : List (Str × PyVal)
  description : Str
  params : List Str

/-- ACTION_MAP, in source order. -/
def ACTION_MAP : List (Str × ActionEntry) :=
  [ ("glueckliches_wackeln".data,
      ⟨"rider_pi_glueckliches_wackeln".data, [],
       "Fröhliche Wackel-Bewegung (Action 1)".data, []⟩),
    ("auf_und_ab_wackeln".data,
      ⟨"rider_pi_auf_und_ab_wackeln".data, [],
       "Vertikale Wackel-Bewegung (Action 2)".data, []⟩),
    ("vor_und_zurueck_rollen".data,
      ⟨"rider_pi_kurz_vor_und_zurueck_rollen".data, [],
       "Kurze Vor- und Rückwärtsbewegung (Action 3)".data, []⟩),
    ("achten_fahren".data,
      ⟨"rider_pi_achten_fahren".data, [],
       "Fahrt in Form einer Acht (Action 4)".data, []⟩),
    ("kreis_drehen".data,
      ⟨"rider_pi_auf_und_ab_im_kreisdrehen".data, [],
       "Auf und Ab im Kreis drehen (Action 5)".data, []⟩),
    ("happy_dance".data,
      ⟨"rider_pi_happy_dance".data, [],
       "Fröhlicher Tanz (Action 6)".data, []⟩),
    ("adjust_height".data,
      ⟨"rider_pi_adjust_height".data, [("height".data, PyVal.int 85)],
       "Höhe anpassen (75-115mm)".data, ["height".data]⟩),
    ("adjust_roll".data,
      ⟨"rider_pi_adjust_roll".data, [("roll".data, PyVal.int 0)],
       "Seitliche Neigung (-17 bis 17°)".data, ["roll".data]⟩),
    ("balance_mode".data,
      ⟨"rider_pi_set_balance_mode".data, [("enabled".data, PyVal.bool true)],
       "Selbststabilisierung an/aus".data, ["enabled".data]⟩),
    ("periodic_squat".data,
      ⟨"rider_pi_periodic_squat".data, [("period".data, PyVal.float 0)],
       "Periodische Kniebeugen (0-4s, 0=stop)".data, ["period".data]⟩),
    ("periodic_shake".data,
      ⟨"rider_pi_periodic_shake".data, [("period".data, PyVal.float 0)],
       "Periodisches Wackeln (0-4s, 0=stop)".data, ["period".data]⟩),
    ("reset".data,
      ⟨"rider_pi_reset".data, [],
       "Zurück auf Standard-Position".data, []⟩),
    ("test_connection".data,
      ⟨"rider_pi_test_connection".data, [],
       "SSH-Verbindung zum Rider Pi testen".data, []⟩) ]

/-- `ACTION_MAP[action]` when present. -/
def lookupAction (action : Str) : Option ActionEntry :=
  (ACTION_MAP.find? (fun kv => decide (kv.1 = action))).map (·.2)

/-- The keys of ACTION_MAP in order, for the unknown-action message. -/
def actionKeys : List Str := ACTION_MAP.map (·.1)

example : (lookupAction "happy_dance".data).map (·.tool)
    = some "rider_pi_happy_dance".data := rfl

example : lookupAction "fly".data = Option.none := rfl

/-- The success marker `f"MCP_RESPONSE [{request_id}]"` (line 412). -/
def successMarker (rid : Str) : Str :=
  "MCP_RESPONSE [".data ++ rid ++ "]".data

/-- The error marker `f"MCP_ERROR [{request_id}]"` (line 428). -/
def errorMarker (rid : Str) : Str :=
  "MCP_ERROR [".data ++ rid ++ "]".data

/-- The fenced-JSON opener looked for on line 415. -/
def fenceJson : Str := "```json".data

/-- The closing fence looked for on line 417. -/
def fenceTicks : Str := "```".data

/-- The timeout result (lines 434-437). -/
def timeoutDict : PyVal :=
  PyVal.dict
    [ ("status".data, PyVal.str "error".data),
      ("message".data, PyVal.str
        ("Timeout nach ".data ++ (toString COMMAND_TIMEOUT).data
          ++ "s. Der Command wird möglicherweise noch ausgeführt.".data)) ]

/-- The degraded success returned when the fenced payload fails to decode
(lines 420-425). -/
def degradedDict (content : Str) : PyVal :=
  PyVal.dict
    [ ("status".data, PyVal.str "success".data),
      ("message".data, PyVal.str "Command ausgeführt".data),
      ("raw_response".data, PyVal.str content) ]

/-- The result for a matched error frame (line 429): the whole frame text is
the message. -/
def errorDict (content : Str) : PyVal :=
  PyVal.dict
    [ ("status".data, PyVal.str "error".data),
      ("message".data, PyVal.str content) ]

/-- Lines 414-418: extract the fenced JSON text from a frame whose text is
known to contain "```json".  `find` for the closing fence may fail, in which
case the Python slice end is -1 (drop the final character). -/
def extractJsonBlock (content : Str) : Str :=
  let jsonStart : Nat := (pyFind content fenceJson 0 + 7).toNat
  let jsonEnd : Int := pyFind content fenceTicks jsonStart
  pyStrip (pySlice content jsonStart jsonEnd)

/-- Lines 408-429: scan one fetched batch of frame texts in order.  A frame
whose text contains the success marker together with a "```json" fence
yields the decoded payload, or the degraded success when decoding raises;
a frame containing the success marker but no fence falls through to the
error-marker test on the same text; a frame containing the error marker
yields the error result; any other frame is skipped. -/
def scanBatch (jl : Str → Option PyVal) (rid : Str) : List Str → Option PyVal
  | [] => Option.none
  | content :: rest =>
    if isSubstr (successMarker rid) content && isSubstr fenceJson content then
      some (match jl (extractJsonBlock content) with
            | some payload => payload
            | Option.none => degradedDict content)
    else if isSubstr (errorMarker rid) content then
      some (errorDict content)
    else scanBatch jl rid rest

/-- `_wait_for_response` (lines 387-437).  Each element of `polls` is one
iteration of the poll loop: `Option.none` models a fetch that failed (non-200
status, line 403, or a network exception, line 431) and `some msgs` a fetched
batch of frame texts.  The list length is the number of iterations the
deadline allows; exhausting it is the deadline elapsing. -/
def waitForResponse (jl : Str → Option PyVal) (rid : Str) :
    List (Option (List Str)) → PyVal
  | [] => timeoutDict
  | poll :: rest =>
    match poll with
    | Option.none => waitForResponse jl rid rest
    | some msgs =>
      match scanBatch jl rid msgs with
      | some r => r
      | Option.none => waitForResponse jl rid rest

/-- Outcome of the single `requests.post` of a dispatch (lines 365-382):
either a network exception or a response with its status code, body text and
the message id of the created message. -/
inductive SendOutcome where
  | netErr (msg : Str)
  | resp (code : Nat) (text : Str) (msgId : Str)

/-- `_send_mcp_command` (lines 353-385): on a network error, return the
error result; on a response whose status is neither 200 nor 201, return the
Discord API error result; otherwise hand over to the Waiter. -/
def sendMCPCommand (jl : Str → Option PyVal) (rid : Str) (send : SendOutcome)
    (polls : List (Option (List Str))) : PyVal :=
  match send with
  | SendOutcome.netErr m =>
    PyVal.dict
      [ ("status".data, PyVal.str "error".data),
        ("message".data, PyVal.str ("Netzwerk-Fehler: ".data ++ m)) ]
  | SendOutcome.resp code text _msgId =>
    if code = 200 ∨ code = 201 then
      waitForResponse jl rid polls
    else
      PyVal.dict
        [ ("status".data, PyVal.str "error".data),
          ("message".data, PyVal.str
            ("Discord API Error: ".data ++ (toString code).data
              ++ " - ".data ++ text)) ]

/-- The command envelope of one dispatch (lines 336-342), as far as the
results observe it: the resolved tool, the resolved arguments and the
request id.  (The wall-clock "timestamp" field and the JSON rendering of the
frame are externally supplied/consumed and are not inspected by anything the
claims mention.) -/
structure MCPCommand where
  tool : Str
  arguments : List (Str × PyVal)
  request_id : Str

/-- `request_id = f"mcp_{int(time.time() * 1000)}"` (line 335). -/
def mkRequestId (nowMs : Nat) : Str := "mcp_".data ++ (toString nowMs).data

/-- Lines 324-332: override the default arguments with the caller-supplied
parameters the action accepts, clamping numeric values and coercing the
boolean.  The source's elif chain tests hardcoded action names; a chain arm
whose parameter is absent leaves the arguments untouched (the remaining arms
test different action names and cannot fire). -/
def applyParams (action : Str) (args0 : List (Str × PyVal))
    (height roll : Option Int) (enabled : Option Bool) (period : Option ℚ) :
    List (Str × PyVal) :=
  if action = "adjust_height".data then
    match height with
    | some h => dictSet args0 "height".data (PyVal.int (max 75 (min 115 h)))
    | Option.none => args0
  else if action = "adjust_roll".data then
    match roll with
    | some r => dictSet args0 "roll".data (PyVal.int (max (-17) (min 17 r)))
    | Option.none => args0
  else if action = "balance_mode".data then
    match enabled with
    | some b => dictSet args0 "enabled".data (PyVal.bool b)
    | Option.none => args0
  else if action = "periodic_squat".data ∨ action = "periodic_shake".data then
    match period with
    | some p => dictSet args0 "period".data (PyVal.float (max 0 (min 4 p)))
    | Option.none => args0
  else args0

/-- The unknown-action result (lines 312-317). -/
def unknownActionDict (action : Str) : PyVal :=
  PyVal.dict
    [ ("status".data, PyVal.str "error".data),
      ("message".data, PyVal.str
        ("Unbekannte Action: \x27".data ++ action
          ++ "\x27. Verfügbar: ".data ++ joinComma actionKeys)) ]

/-- The external circumstances of one dispatch: the wall clock read for the
request id, the outcome of the send, and the poll outcomes. -/
structure DispatchEnv where
  nowMs : Nat
  send : SendOutcome
  polls : List (Option (List Str))

/-- `_execute_single_action` (lines 307-349).  Returns the result together
with the list of command frames submitted to the transport (empty when the
action is unknown — validation happens before any network call; a singleton
once the send is attempted). -/
def executeSingleAction (jl : Str → Option PyVal) (env : DispatchEnv)
    (action : Str) (height roll : Option Int) (enabled : Option Bool)
    (period : Option ℚ) : PyVal × List MCPCommand :=
  match lookupAction action with
  | Option.none => (unknownActionDict action, [])
  | some entry =>
    let args := applyParams action entry.args height roll enabled period
    let rid := mkRequestId env.nowMs
    (sendMCPCommand jl rid env.send env.polls, [⟨entry.tool, args, rid⟩])

example :
    (executeSingleAction (fun _ => Option.none) ⟨7, SendOutcome.resp 200 "ok".data "m".data, []⟩
      "adjust_height".data (some 500) Option.none Option.none Option.none).2
    = [⟨"rider_pi_adjust_height".data, [("height".data, PyVal.int 115)], "mcp_7".data⟩] := rfl

/-- One element of the `sequence` list: the dictionary keys the runner reads
(lines 244, 257-260), at the types the tool documents.  A missing key reads
as `Option.none` (Python `None`). -/
structure Step where
  action : Option Str
  height : Option Int
  roll : Option Int
  enabled : Option Bool
  period : Option ℚ

/-- A parameterless step. -/
def mkStep (a : Str) : Step := ⟨some a, Option.none, Option.none, Option.none, Option.none⟩

/-- The result recorded for a step with a missing or falsy "action"
(lines 247-252). -/
def noActionDict (i : Nat) : PyVal :=
  PyVal.dict
    [ ("index".data, PyVal.int (i : Int)),
      ("action".data, PyVal.str "unknown".data),
      ("status".data, PyVal.str "error".data),
      ("message".data, PyVal.str "Keine \x27action\x27 im Dict gefunden".data) ]

/-- The action name a step gets recorded under: "unknown" when the "action"
value is missing or falsy, the name itself otherwise. -/
def stepRecordedAction (st : Step) : Str :=
  let act := st.action.getD []
  if act = [] then "unknown".data else act

/-- The loop body of `_execute_sequence` (lines 243-286) over the remaining
steps, carrying the absolute step index `i` and the dispatch counter `k`
(the k-th dispatch uses `envs k`).  Produces the accumulated step results,
the successful and failed counts, and the command frames submitted; an
uncaught Python exception (item assignment on a non-dict result, reachable
when a matched payload decodes to a non-dict) aborts the whole call and is
modelled as `.error`. -/
def execSeqLoop (jl : Str → Option PyVal) (envs : Nat → DispatchEnv) :
    List Step → Nat → Nat →
    Except String (List PyVal × Nat × Nat × List MCPCommand)
  | [], _, _ => Except.ok ([], 0, 0, [])
  | st :: rest, i, k =>
    let act := st.action.getD []
    if act = [] then
      match execSeqLoop jl envs rest (i + 1) k with
      | Except.error e => Except.error e
      | Except.ok (rs, s, f, cs) => Except.ok (noActionDict i :: rs, s, f + 1, cs)
    else
      let rsent := executeSingleAction jl (envs k) act st.height st.roll st.enabled st.period
      match pySetItem rsent.1 "index".data (PyVal.int (i : Int)) with
      | Except.error e => Except.error e
      | Except.ok res1 =>
        match pySetItem res1 "action".data (PyVal.str act) with
        | Except.error e => Except.error e
        | Except.ok res2 =>
          match execSeqLoop jl envs rest (i + 1) (k + 1) with
          | Except.error e => Except.error e
          | Except.ok (rs, s, f, cs) =>
            if statusIsSuccess res2 then
              Except.ok (res2 :: rs, s + 1, f, rsent.2 ++ cs)
            else
              Except.ok (res2 :: rs, s, f + 1, rsent.2 ++ cs)

/-- The summary message of lines 289-291. -/
def summaryMsg (successful total failed : Nat) : Str :=
  "Sequenz abgeschlossen: ".data ++ (toString successful).data ++ "/".data
    ++ (toString total).data ++ " erfolgreich".data
    ++ (if 0 < failed
        then ", ".data ++ (toString failed).data ++ " fehlgeschlagen".data
        else [])

/-- `_execute_sequence` (lines 232-303): run the loop and package the
aggregate summary.  The result carries the submitted command frames. -/
def executeSequence (jl : Str → Option PyVal) (envs : Nat → DispatchEnv)
    (sequence : List Step) (_delay_between : ℚ) :
    Except String (PyVal × List MCPCommand) :=
  match execSeqLoop jl envs sequence 0 0 with
  | Except.error e => Except.error e
  | Except.ok (rs, s, f, cs) =>
    Except.ok
      (PyVal.dict
        [ ("status".data, PyVal.str (if f = 0 then "success".data else "partial".data)),
          ("message".data, PyVal.str (summaryMsg s sequence.length f)),
          ("total_actions".data, PyVal.int (sequence.length : Int)),
          ("successful".data, PyVal.int (s : Int)),
          ("failed".data, PyVal.int (f : Int)),
          ("results".data, PyVal.list rs) ], cs)

/-- The pre-flight error for a missing/empty/invalid `sequence` argument
(lines 219-223). -/
def seqNeededDict : PyVal :=
  PyVal.dict
    [ ("status".data, PyVal.str "error".data),
      ("message".data, PyVal.str
        ("Für \x27sequence\x27 wird eine Liste von Actions benötigt. Beispiel: sequence=[\x7b\x27action\x27: \x27happy_dance\x27\x7d, \x7b\x27action\x27: \x27reset\x27\x7d]".data)) ]

/-- The `list_actions` result (lines 205-215). -/
def listActionsDict : PyVal :=
  PyVal.dict
    [ ("status".data, PyVal.str "success".data),
      ("message".data, PyVal.str "Verfügbare Actions:".data),
      ("actions".data,
        PyVal.dict (ACTION_MAP.map (fun kv => (kv.1, PyVal.str kv.2.description)))),
      ("example_sequence".data,
        PyVal.list
          [ PyVal.dict [("action".data, PyVal.str "happy_dance".data)],
            PyVal.dict [("action".data, PyVal.str "adjust_height".data),
                        ("height".data, PyVal.int 100)],
            PyVal.dict [("action".data, PyVal.str "reset".data)] ]) ]

/-- `rider_pi_tool` (lines 146-228), the public entry point, instrumented
with the list of command frames submitted to the transport.  `sequence` is
`Option.none` when the argument is absent (Python `None`); a non-list value
for it (also rejected by the `isinstance` check) is outside this typed
embedding.  The single-action path performs at most one dispatch and uses
`envs 0`. -/
def rider_pi_tool (jl : Str → Option PyVal) (envs : Nat → DispatchEnv)
    (action : Str) (height roll : Option Int) (enabled : Option Bool)
    (period : Option ℚ) (sequence : Option (List Step)) (delay_between : ℚ) :
    Except String (PyVal × List MCPCommand) :=
  if action = "list_actions".data then
    Except.ok (listActionsDict, [])
  else if action = "sequence".data then
    match sequence with
    | Option.none => Except.ok (seqNeededDict, [])
    | some [] => Except.ok (seqNeededDict, [])
    | some steps => executeSequence jl envs steps delay_between
  else
    Except.ok (executeSingleAction jl (envs 0) action height roll enabled period)

/-- Position of an action in ACTION_MAP together with its entry; the
position doubles as the heap address of its default-arguments dict. -/
def lookupIdx : List (Str × ActionEntry) → Str → Option (Nat × ActionEntry)
  | [], _ => Option.none
  | (k, v) :: rest, a =>
    if k = a then some (0, v)
    else (lookupIdx rest a).map (fun p => (p.1 + 1, p.2))

/-- The heap of argument dictionaries at process start: the i-th cell is
the `args` dict of the i-th ACTION_MAP entry, as built once at import time
(lines 68-142). -/
def store0 : List (List (Str × PyVal)) := ACTION_MAP.map (fun kv => kv.2.args)

/-- Store-passing model of lines 319-332.  `ACTION_MAP[action].copy()` is a
shallow copy, so its "args" slot still aliases the registry's dict; the
second `.copy()` (line 322) allocates a fresh cell (at the end of the
store), and the parameter overrides of lines 325-332 mutate only that fresh
cell.  Returns the resolved tool with the address of the resolved argument
dict, and the store after the call. -/
def resolveHeap (store : List (List (Str × PyVal))) (action : Str)
    (height roll : Option Int) (enabled : Option Bool) (period : Option ℚ) :
    Option (Str × Nat) × List (List (Str × PyVal)) :=
  match lookupIdx ACTION_MAP action with
  | Option.none => (Option.none, store)
  | some (i, entry) =>
    let copied := store.getD i []
    let mutated := applyParams action copied height roll enabled period
    (some (entry.tool, store.length), store ++ [mutated])

/-- The contents of the argument dict a resolution returns, read from the
store it leaves behind. -/
def resolvedArgs (store : List (List (Str × PyVal))) (action : Str)
    (height roll : Option Int) (enabled : Option Bool) (period : Option ℚ) :
    Option (List (Str × PyVal)) :=
  match resolveHeap store action height roll enabled period with
  | (some (_, addr), store1) => some (store1.getD addr [])
  | (Option.none, _) => Option.none

example :
    resolvedArgs store0 "adjust_height".data (some 500) Option.none Option.none Option.none
      = some [("height".data, PyVal.int 115)] := rfl

/-- A decoder that fails on every string: agrees with `json.loads` on any
non-JSON text. -/
def jlEmpty : Str → Option PyVal := fun _ => Option.none

/-- A decoder defined exactly on the payload text
`{"status": "success"}`, where it agrees with `json.loads`. -/
def jlStatusSuccess : Str → Option PyVal := fun s =>
  if s = "\x7b\"status\": \"success\"\x7d".data
  then some (PyVal.dict [("status".data, PyVal.str "success".data)])
  else Option.none

/-- A decoder defined exactly on the payload text `{"ok": true}`, where it
agrees with `json.loads`. -/
def jlOkTrue : Str → Option PyVal := fun s =>
  if s = "\x7b\"ok\": true\x7d".data
  then some (PyVal.dict [("ok".data, PyVal.bool true)])
  else Option.none

example :
    waitForResponse jlStatusSuccess "mcp_5".data
      [some ["MCP_RESPONSE [mcp_5] ```json\n\x7b\"status\": \"success\"\x7d\n```".data]]
      = PyVal.dict [("status".data, PyVal.str "success".data)] := rfl

example :
    waitForResponse jlEmpty "r7".data [some ["MCP_RESPONSE [r7] erledigt".data]]
      = timeoutDict := rfl

example :
    waitForResponse jlEmpty "r7".data [some ["MCP_ERROR [r7] kaputt".data]]
      = errorDict "MCP_ERROR [r7] kaputt".data := rfl

/-- A frame is relevant to request id `rid` when its text contains either
marker for exactly `rid`. -/
def relevantFrame (rid : Str) (content : Str) : Bool :=
  isSubstr (successMarker rid) content || isSubstr (errorMarker rid) content

/-- A frame the Waiter actually matches: the error marker, or the success
marker together with a "```json" fence. -/
def matchableFrame (rid : Str) (content : Str) : Bool :=
  isSubstr (errorMarker rid) content
    || (isSubstr (successMarker rid) content && isSubstr fenceJson content)

theorem dictGet_dictSet_self (es : List (Str × PyVal)) (k : Str) (v : PyVal) :
    dictGet (dictSet es k v) k = some v := by
  induction es with
  | nil => simp [dictSet, dictGet]
  | cons hd tl ih =>
    by_cases h : hd.1 = k
    · simp [dictSet, dictGet, h]
    · simpa [dictSet, dictGet, h] using ih

theorem dictGet_dictSet_ne (es : List (Str × PyVal)) (k k2 : Str) (v : PyVal)
    (h : k ≠ k2) : dictGet (dictSet es k v) k2 = dictGet es k2 := by
  induction es with
  | nil => simp [dictSet, dictGet, h]
  | cons hd tl ih =>
    by_cases h0 : hd.1 = k
    · simp [dictSet, dictGet, h0, h]
    · by_cases h1 : hd.1 = k2
      · simp [dictSet, dictGet, h0, h1, Ne.symm h]
      · simpa [dictSet, dictGet, h0, h1] using ih

/-- Skipping a frame that matches neither marker: scanning a batch equals
scanning its restriction to relevant frames. -/
theorem scanBatch_filter_relevant (jl : Str → Option PyVal) (rid : Str)
    (msgs : List Str) :
    scanBatch jl rid (msgs.filter (relevantFrame rid)) = scanBatch jl rid msgs := by
  induction msgs with
  | nil => rfl
  | cons c rest ih =>
    by_cases hs : isSubstr (successMarker rid) c
    · by_cases hf : isSubstr fenceJson c
      · simp [List.filter, relevantFrame, hs, scanBatch, hf]
      · by_cases he : isSubstr (errorMarker rid) c
        · simp [List.filter, relevantFrame, hs, scanBatch, hf, he]
        · simpa [List.filter, relevantFrame, hs, scanBatch, hf, he] using ih
    · by_cases he : isSubstr (errorMarker rid) c
      · simp [List.filter, relevantFrame, hs, scanBatch, he]
      · simpa [List.filter, relevantFrame, hs, scanBatch, he] using ih

/-- A batch containing a matchable frame never scans to nothing. -/
theorem scanBatch_isSome_of_matchable (jl : Str → Option PyVal) (rid : Str)
    (msgs : List Str) (c : Str) (hmem : c ∈ msgs)
    (hm : matchableFrame rid c = true) :
    (scanBatch jl rid msgs).isSome = true := by
  induction msgs with
  | nil => cases hmem
  | cons d rest ih =>
    by_cases hs : isSubstr (successMarker rid) d && isSubstr fenceJson d
    · simp [scanBatch, hs]
    · by_cases he : isSubstr (errorMarker rid) d
      · simp [scanBatch, hs, he]
      · rcases List.mem_cons.mp hmem with hcd | hcr
        · subst hcd
          simp only [matchableFrame, Bool.or_eq_true] at hm
          rcases hm with hm | hm
          · exact absurd hm he
          · exact absurd hm (by simpa using hs)
        · simpa [scanBatch, hs, he] using ih hcr

/-- The Waiter in closed form: the first match among the successfully
fetched batches, or the timeout result once the poll budget is exhausted. -/
theorem waitForResponse_characterization (jl : Str → Option PyVal) (rid : Str)
    (polls : List (Option (List Str))) :
    waitForResponse jl rid polls
      = (polls.findSome? (fun p => Option.bind p (scanBatch jl rid))).getD timeoutDict := by
  induction polls with
  | nil => rfl
  | cons p rest ih =>
    cases p with
    | none => simpa [waitForResponse, List.findSome?] using ih
    | some msgs =>
      cases h : scanBatch jl rid msgs with
      | none => simpa [waitForResponse, List.findSome?, h] using ih
      | some r => simp [waitForResponse, List.findSome?, h]

/-- Frames relevant to neither marker can be deleted from every fetched
batch without changing the Waiter's result. -/
theorem waitForResponse_filter_relevant (jl : Str → Option PyVal) (rid : Str)
    (polls : List (Option (List Str))) :
    waitForResponse jl rid (polls.map (Option.map (List.filter (relevantFrame rid))))
      = waitForResponse jl rid polls := by
  induction polls with
  | nil => rfl
  | cons p rest ih =>
    cases p with
    | none => simpa [waitForResponse] using ih
    | some msgs =>
      cases h : scanBatch jl rid msgs with
      | none =>
        have h2 := scanBatch_filter_relevant jl rid msgs
        rw [h] at h2
        simpa [waitForResponse, h, h2] using ih
      | some r =>
        have h2 := scanBatch_filter_relevant jl rid msgs
        rw [h] at h2
        simp [waitForResponse, h, h2]

/-- When no parameter is supplied, the resolved arguments are exactly the
action's defaults. -/
theorem applyParams_none (action : Str) (args0 : List (Str × PyVal)) :
    applyParams action args0 Option.none Option.none Option.none Option.none = args0 := by
  unfold applyParams
  repeat' split
  all_goals first | rfl | simp_all

theorem resultIndexOf_noActionDict (i : Nat) :
    resultIndexOf (noActionDict i) = some (i : Int) := rfl

theorem resultActionOf_noActionDict (i : Nat) :
    resultActionOf (noActionDict i) = some "unknown".data := rfl

/-- Structure of a completed sequence run: one recorded result per input
step, success and failure counts summing to the number of steps, and each
recorded result carrying its original index and its step's action name, in
input order. -/
theorem execSeqLoop_shape (jl : Str → Option PyVal) (envs : Nat → DispatchEnv) :
    ∀ (steps : List Step) (i k : Nat) (rs : List PyVal) (s f : Nat)
      (cs : List MCPCommand),
      execSeqLoop jl envs steps i k = Except.ok (rs, s, f, cs) →
      rs.length = steps.length ∧ s + f = steps.length ∧
      (∀ j (hj : j < rs.length) (hj2 : j < steps.length),
        resultIndexOf (rs.get ⟨j, hj⟩) = some ((i + j : Nat) : Int) ∧
        resultActionOf (rs.get ⟨j, hj⟩) = some (stepRecordedAction (steps.get ⟨j, hj2⟩))) := by
  intro steps
  induction steps with
  | nil =>
    intro i k rs s f cs h
    simp only [execSeqLoop, Except.ok.injEq, Prod.mk.injEq] at h
    obtain ⟨h1, h2, h3, h4⟩ := h
    subst h1; subst h2; subst h3
    refine ⟨rfl, rfl, ?_⟩
    intro j hj hj2
    exact absurd hj (by simp)
  | cons st rest ih =>
    intro i k rs s f cs h
    simp only [execSeqLoop] at h
    by_cases hact : st.action.getD [] = []
    · rw [if_pos hact] at h
      cases hrec : execSeqLoop jl envs rest (i + 1) k with
      | error e => rw [hrec] at h; cases h
      | ok out =>
        obtain ⟨rs', s', f', cs'⟩ := out
        rw [hrec] at h
        simp only [Except.ok.injEq, Prod.mk.injEq] at h
        obtain ⟨h1, h2, h3, h4⟩ := h
        subst h1; subst h2; subst h3
        obtain ⟨hlen, hsum, hidx⟩ := ih (i + 1) k rs' s' f' cs' hrec
        refine ⟨by simpa using hlen, by simp only [List.length_cons]; omega, ?_⟩
        intro j hj hj2
        cases j with
        | zero =>
          refine ⟨by simpa using resultIndexOf_noActionDict i, ?_⟩
          simp [resultActionOf_noActionDict, stepRecordedAction, hact]
        | succ j' =>
          have hj' : j' < rs'.length := by simpa using hj
          have hj2' : j' < rest.length := by simpa using hj2
          obtain ⟨hidx1, hidx2⟩ := hidx j' hj' hj2'
          constructor
          · simpa [Nat.add_assoc, Nat.add_comm 1 j'] using hidx1
          · simpa using hidx2
    · rw [if_neg hact] at h
      cases hv : (executeSingleAction jl (envs k) (st.action.getD [])
          st.height st.roll st.enabled st.period).1 with
      | dict es =>
        rw [hv] at h
        simp only [pySetItem] at h
        cases hrec : execSeqLoop jl envs rest (i + 1) (k + 1) with
        | error e => rw [hrec] at h; cases h
        | ok out =>
          obtain ⟨rs', s', f', cs'⟩ := out
          rw [hrec] at h
          by_cases hsucc : statusIsSuccess (PyVal.dict
              (dictSet (dictSet es "index".data (PyVal.int (i : Int)))
                "action".data (PyVal.str (st.action.getD []))))
          all_goals
            simp only [hsucc, if_pos, if_neg, Bool.false_eq_true, not_false_iff,
              ite_true, ite_false, Except.ok.injEq, Prod.mk.injEq] at h
          all_goals
            obtain ⟨h1, h2, h3, h4⟩ := h
          all_goals
            subst h1; subst h2; subst h3
          all_goals
            obtain ⟨hlen, hsum, hidx⟩ := ih (i + 1) (k + 1) rs' s' f' cs' hrec
          all_goals
            refine ⟨by simpa using hlen, by simp only [List.length_cons]; omega, ?_⟩
          all_goals
            intro j hj hj2
          all_goals
            cases j with
            | zero =>
              constructor
              · show resultIndexOf (PyVal.dict _) = _
                simp only [resultIndexOf, fieldInt]
                rw [dictGet_dictSet_ne _ _ _ _ (by decide),
                  dictGet_dictSet_self]
                simp
              · show resultActionOf (PyVal.dict _) = _
                simp only [resultActionOf]
                rw [dictGet_dictSet_self]
                simp [stepRecordedAction, hact]
            | succ j' =>
              have hj' : j' < rs'.length := by simpa using hj
              have hj2' : j' < rest.length := by simpa using hj2
              obtain ⟨hidx1, hidx2⟩ := hidx j' hj' hj2'
              constructor
              · simpa [Nat.add_assoc, Nat.add_comm 1 j'] using hidx1
              · simpa using hidx2
      | null => rw [hv] at h; simp only [pySetItem] at h; cases h
      | bool b => rw [hv] at h; simp only [pySetItem] at h; cases h
      | int n => rw [hv] at h; simp only [pySetItem] at h; cases h
      | float q => rw [hv] at h; simp only [pySetItem] at h; cases h
      | str s0 => rw [hv] at h; simp only [pySetItem] at h; cases h
      | list xs => rw [hv] at h; simp only [pySetItem] at h; cases h

theorem getD_append_lt {α : Type} (l l2 : List α) (d : α) (n : Nat)
    (h : n < l.length) : (l ++ l2).getD n d = l.getD n d := by
  induction l generalizing n with
  | nil => simp at h
  | cons a tl ih =>
    cases n with
    | zero => rfl
    | succ n' => simpa using ih n' (by simpa using h)

theorem getD_append_length {α : Type} (l : List α) (x d : α) :
    (l ++ [x]).getD l.length d = x := by
  induction l with
  | nil => rfl
  | cons a tl ih => simp [ih]

theorem lookupIdx_lt (l : List (Str × ActionEntry)) (a : Str) (i : Nat)
    (e : ActionEntry) (h : lookupIdx l a = some (i, e)) : i < l.length := by
  induction l generalizing i with
  | nil => cases h
  | cons kv rest ih =>
    by_cases hk : kv.1 = a
    · simp only [lookupIdx, hk, if_pos] at h
      cases h
      simp
    · simp only [lookupIdx, hk, if_neg, not_false_iff, Option.map_eq_some'] at h
      obtain ⟨⟨i', e'⟩, hrec, heq⟩ := h
      cases heq
      simp [Nat.succ_lt_succ (ih i' hrec)]

/-- Any resolution leaves every previously allocated dictionary — the
registry's defaults included — exactly as it was. -/
theorem resolveHeap_preserves (store : List (List (Str × PyVal)))
    (action : Str) (height roll : Option Int) (enabled : Option Bool)
    (period : Option ℚ) :
    ((resolveHeap store action height roll enabled period).2).take store.length
      = store := by
  unfold resolveHeap
  cases lookupIdx ACTION_MAP action with
  | none => simp
  | some p => simp [List.take_left]

/-- Two identical resolutions in a row (the second running on the store the
first left behind) return the same tool and argument dictionaries with the
same contents: the first call's mutation of its private copy is invisible
to the second. -/
theorem resolveHeap_deterministic (action : Str) (height roll : Option Int)
    (enabled : Option Bool) (period : Option ℚ) :
    (resolveHeap ((resolveHeap store0 action height roll enabled period).2)
        action height roll enabled period).1.map Prod.fst
      = (resolveHeap store0 action height roll enabled period).1.map Prod.fst ∧
    resolvedArgs ((resolveHeap store0 action height roll enabled period).2)
        action height roll enabled period
      = resolvedArgs store0 action height roll enabled period := by
  cases hl : lookupIdx ACTION_MAP action with
  | none => simp [resolveHeap, resolvedArgs, hl]
  | some p =>
    obtain ⟨i, entry⟩ := p
    have hi : i < ACTION_MAP.length := lookupIdx_lt _ _ _ _ hl
    have hi0 : i < store0.length := by
      simpa [store0] using hi
    have hread :
        (store0 ++ [applyParams action (store0.getD i []) height roll enabled period]).getD i []
          = store0.getD i [] := getD_append_lt _ _ _ _ hi0
    constructor
    · simp [resolveHeap, hl]
    · simp only [resolvedArgs, resolveHeap, hl]
      rw [getD_append_length, getD_append_length, hread]

/-- C1 (counterexample): the claim asserts every frame containing the
success or error marker with exactly the outgoing request id is matched;
but a frame carrying the exact success marker with no "```json" fence is
passed over, and the Waiter falls through to the timeout result. -/
theorem C1_counterexample :
    isSubstr (successMarker "r7".data) "MCP_RESPONSE [r7] erledigt".data = true ∧
    waitForResponse jlEmpty "r7".data [some ["MCP_RESPONSE [r7] erledigt".data]]
      = timeoutDict :=
  ⟨rfl, rfl⟩

/-- C1 (amended): the Waiter never returns a result derived from a frame
whose text lacks both markers for exactly the outgoing request id — deleting
all such frames from every fetched batch (however they interleave) leaves
the result unchanged — and a frame containing the error marker with exactly
that id, or the success marker with exactly that id together with a
"```json" fence, is matched: a batch containing one never scans to
nothing. -/
theorem C1_correlation_amended (jl : Str → Option PyVal) (rid : Str) :
    (∀ polls, waitForResponse jl rid
        (polls.map (Option.map (List.filter (relevantFrame rid))))
        = waitForResponse jl rid polls) ∧
    (∀ msgs c, c ∈ msgs → matchableFrame rid c = true →
        (scanBatch jl rid msgs).isSome = true) :=
  ⟨waitForResponse_filter_relevant jl rid,
   fun msgs c hm hmf => scanBatch_isSome_of_matchable jl rid msgs c hm hmf⟩

theorem C1_correlation_amended_witness :
    (scanBatch jlEmpty "r1".data
      ["anderer Verkehr".data, "MCP_ERROR [r1] kaputt".data]).isSome = true :=
  (C1_correlation_amended jlEmpty "r1".data).2
    ["anderer Verkehr".data, "MCP_ERROR [r1] kaputt".data]
    "MCP_ERROR [r1] kaputt".data
    (List.mem_cons_of_mem _ (List.mem_cons_self _ _)) rfl

/-- C2 (counterexample): the claim asserts every fetched frame containing
the success marker with the outgoing id yields a Success (decoded or
degraded) and is never ignored; but a success-marker frame with no
"```json" fence is ignored and the Waiter falls through to the Timeout
result (whose status is "error", not a Success). -/
theorem C2_counterexample :
    isSubstr (successMarker "s9".data) "MCP_RESPONSE [s9] fertig".data = true ∧
    isSubstr fenceJson "MCP_RESPONSE [s9] fertig".data = false ∧
    waitForResponse jlEmpty "s9".data [some ["MCP_RESPONSE [s9] fertig".data]]
      = timeoutDict ∧
    statusStrOf timeoutDict = some "error".data :=
  ⟨rfl, rfl, rfl, rfl⟩

/-- C2 (amended): a fetched frame that contains the success marker with the
outgoing id together with a "```json" fence, and is the first frame the
scan reaches, is matched immediately: the Waiter returns the decoded
payload when decoding succeeds and the degraded Success carrying the raw
frame text when decoding fails — never a hard error from decode failure
(the degraded result's status is "success") and never a fall-through to
Timeout.  A success-marker frame lacking the fence is instead ignored. -/
theorem C2_success_frame_amended (jl : Str → Option PyVal) (rid : Str)
    (content : Str) (h1 : isSubstr (successMarker rid) content = true)
    (h2 : isSubstr fenceJson content = true) :
    (∀ rest more, waitForResponse jl rid (some (content :: rest) :: more)
        = (match jl (extractJsonBlock content) with
           | some payload => payload
           | Option.none => degradedDict content)) ∧
    statusStrOf (degradedDict content) = some "success".data := by
  constructor
  · intro rest more
    simp [waitForResponse, scanBatch, h1, h2]
  · rfl

theorem C2_success_frame_amended_witness :
    waitForResponse jlEmpty "w1".data
        [some ["MCP_RESPONSE [w1] ```json\nkein json\n```".data]]
      = degradedDict "MCP_RESPONSE [w1] ```json\nkein json\n```".data :=
  (C2_success_frame_amended jlEmpty "w1".data
    "MCP_RESPONSE [w1] ```json\nkein json\n```".data rfl rfl).1 [] []

/-- C3: a failed poll fetch is absorbed and polling continues, as is a
fetched batch with no matching frame; and the Waiter's result is exactly
the first match among the successfully fetched batches when one exists and
the Timeout result precisely when the poll budget (the deadline) is
exhausted with no matched frame — a fetch failure is never surfaced. -/
theorem C3_poll_errors_absorbed (jl : Str → Option PyVal) (rid : Str) :
    (∀ rest, waitForResponse jl rid (Option.none :: rest)
        = waitForResponse jl rid rest) ∧
    (∀ msgs rest, scanBatch jl rid msgs = Option.none →
        waitForResponse jl rid (some msgs :: rest)
          = waitForResponse jl rid rest) ∧
    (∀ polls, waitForResponse jl rid polls
        = (polls.findSome? (fun p => Option.bind p (scanBatch jl rid))).getD
            timeoutDict) := by
  refine ⟨fun rest => rfl, fun msgs rest h => ?_,
    waitForResponse_characterization jl rid⟩
  simp [waitForResponse, h]

theorem C3_poll_errors_absorbed_witness :
    waitForResponse jlEmpty "r2".data
        [Option.none, some ["unbeteiligter Verkehr".data]]
      = waitForResponse jlEmpty "r2".data [some ["unbeteiligter Verkehr".data]] ∧
    waitForResponse jlEmpty "r2".data [some ["unbeteiligter Verkehr".data]]
      = waitForResponse jlEmpty "r2".data [] :=
  ⟨(C3_poll_errors_absorbed jlEmpty "r2".data).1 [some ["unbeteiligter Verkehr".data]],
   (C3_poll_errors_absorbed jlEmpty "r2".data).2.1 ["unbeteiligter Verkehr".data] [] rfl⟩

/-- C4: resolving a known action with a supplied numeric parameter clamps it
to the documented range — height to [75,115] (500 ↦ 115, -50 ↦ 75, in-range
values unchanged), roll to [-17,17], period to [0.0,4.0] for both periodic
actions — the boolean parameter is coerced to a strict boolean, and with no
parameter supplied the action's default arguments are used verbatim (the
dispatched command carries exactly the registry defaults). -/
theorem C4_parameter_clamping (jl : Str → Option PyVal) (env : DispatchEnv) :
    (∀ args0, dictGet (applyParams "adjust_height".data args0 (some 500)
        Option.none Option.none Option.none) "height".data
        = some (PyVal.int 115)) ∧
    (∀ args0, dictGet (applyParams "adjust_height".data args0 (some (-50))
        Option.none Option.none Option.none) "height".data
        = some (PyVal.int 75)) ∧
    (∀ args0 (h : Int), 75 ≤ h → h ≤ 115 →
        dictGet (applyParams "adjust_height".data args0 (some h)
          Option.none Option.none Option.none) "height".data
        = some (PyVal.int h)) ∧
    (∀ args0 (r : Int), dictGet (applyParams "adjust_roll".data args0
        Option.none (some r) Option.none Option.none) "roll".data
        = some (PyVal.int (max (-17) (min 17 r)))) ∧
    (∀ args0 (q : ℚ), dictGet (applyParams "periodic_squat".data args0
        Option.none Option.none Option.none (some q)) "period".data
        = some (PyVal.float (max 0 (min 4 q)))) ∧
    (∀ args0 (q : ℚ), dictGet (applyParams "periodic_shake".data args0
        Option.none Option.none Option.none (some q)) "period".data
        = some (PyVal.float (max 0 (min 4 q)))) ∧
    (∀ args0 (b : Bool), dictGet (applyParams "balance_mode".data args0
        Option.none Option.none (some b) Option.none) "enabled".data
        = some (PyVal.bool b)) ∧
    (∀ action args0, applyParams action args0
        Option.none Option.none Option.none Option.none = args0) ∧
    (∀ action entry, lookupAction action = some entry →
        (executeSingleAction jl env action
          Option.none Option.none Option.none Option.none).2
        = [⟨entry.tool, entry.args, mkRequestId env.nowMs⟩]) := by
  refine ⟨?_, ?_, ?_, ?_, ?_, ?_, ?_, ?_, ?_⟩
  · intro args0
    have h := dictGet_dictSet_self args0 "height".data
      (PyVal.int (max 75 (min 115 500)))
    rw [show (max 75 (min 115 (500 : Int))) = 115 by decide] at h
    exact h
  · intro args0
    have h := dictGet_dictSet_self args0 "height".data
      (PyVal.int (max 75 (min 115 (-50))))
    rw [show (max 75 (min 115 (-50 : Int))) = 75 by decide] at h
    exact h
  · intro args0 h h1 h2
    show dictGet (dictSet args0 "height".data
      (PyVal.int (max 75 (min 115 h)))) "height".data = some (PyVal.int h)
    rw [show max 75 (min 115 h) = h by omega]
    exact dictGet_dictSet_self args0 "height".data (PyVal.int h)
  · intro args0 r
    exact dictGet_dictSet_self args0 "roll".data (PyVal.int (max (-17) (min 17 r)))
  · intro args0 q
    exact dictGet_dictSet_self args0 "period".data (PyVal.float (max 0 (min 4 q)))
  · intro args0 q
    exact dictGet_dictSet_self args0 "period".data (PyVal.float (max 0 (min 4 q)))
  · intro args0 b
    exact dictGet_dictSet_self args0 "enabled".data (PyVal.bool b)
  · exact applyParams_none
  · intro action entry h
    simp [executeSingleAction, h, applyParams_none]

theorem C4_parameter_clamping_witness :
    dictGet (applyParams "adjust_height".data [("height".data, PyVal.int 85)]
        (some 100) Option.none Option.none Option.none) "height".data
      = some (PyVal.int 100) ∧
    (executeSingleAction jlEmpty ⟨3, SendOutcome.netErr [], []⟩ "reset".data
        Option.none Option.none Option.none Option.none).2
      = [⟨"rider_pi_reset".data, [], "mcp_3".data⟩] :=
  ⟨(C4_parameter_clamping jlEmpty ⟨3, SendOutcome.netErr [], []⟩).2.2.1
      [("height".data, PyVal.int 85)] 100 (by decide) (by decide),
   (C4_parameter_clamping jlEmpty ⟨3, SendOutcome.netErr [], []⟩).2.2.2.2.2.2.2.2
      "reset".data ⟨"rider_pi_reset".data, [], "Zurück auf Standard-Position".data, []⟩ rfl⟩

/-- The dispatch environment used by the concrete sequence scenarios: clock
at 5 ms (request id "mcp_5"), send accepted with status 200, and one poll
fetching a single success frame for "mcp_5" whose fenced payload is
`{"status": "success"}`. -/
def envC5 : DispatchEnv :=
  ⟨5, SendOutcome.resp 200 "ok".data "m1".data,
   [some ["MCP_RESPONSE [mcp_5] ```json\n\x7b\"status\": \"success\"\x7d\n```".data]]⟩

/-- The unknown-action message the registry produces for "tanzen", spelled
out in full. -/
def msgTanzen : Str :=
  "Unbekannte Action: \x27tanzen\x27. Verfügbar: glueckliches_wackeln, auf_und_ab_wackeln, vor_und_zurueck_rollen, achten_fahren, kreis_drehen, happy_dance, adjust_height, adjust_roll, balance_mode, periodic_squat, periodic_shake, reset, test_connection".data

set_option maxRecDepth 100000 in
/-- C5: a step's failure does not abort the run — every completed run
records exactly one result per input step, in input order, each carrying its
original index and its step's action name, with success and failure counts
summing to the number of steps; and concretely, for 3 steps whose second
resolves to an unknown action, steps 1 and 3 execute (two frames reach the
transport), the summary is status "partial" with successful = 2 and
failed = 1, and the three recorded results keep indices 0, 1, 2 in input
order. -/
theorem C5_partial_failure_tolerated (jl : Str → Option PyVal)
    (envs : Nat → DispatchEnv) :
    (∀ steps i k rs s f cs,
      execSeqLoop jl envs steps i k = Except.ok (rs, s, f, cs) →
      rs.length = steps.length ∧ s + f = steps.length ∧
      (∀ j (hj : j < rs.length) (hj2 : j < steps.length),
        resultIndexOf (rs.get ⟨j, hj⟩) = some ((i + j : Nat) : Int) ∧
        resultActionOf (rs.get ⟨j, hj⟩)
          = some (stepRecordedAction (steps.get ⟨j, hj2⟩)))) ∧
    executeSequence jlStatusSuccess (fun _ => envC5)
        [mkStep "happy_dance".data, mkStep "tanzen".data, mkStep "reset".data] 2
      = Except.ok
          (PyVal.dict
            [ ("status".data, PyVal.str "partial".data),
              ("message".data, PyVal.str
                "Sequenz abgeschlossen: 2/3 erfolgreich, 1 fehlgeschlagen".data),
              ("total_actions".data, PyVal.int 3),
              ("successful".data, PyVal.int 2),
              ("failed".data, PyVal.int 1),
              ("results".data, PyVal.list
                [ PyVal.dict
                    [ ("status".data, PyVal.str "success".data),
                      ("index".data, PyVal.int 0),
                      ("action".data, PyVal.str "happy_dance".data) ],
                  PyVal.dict
                    [ ("status".data, PyVal.str "error".data),
                      ("message".data, PyVal.str msgTanzen),
                      ("index".data, PyVal.int 1),
                      ("action".data, PyVal.str "tanzen".data) ],
                  PyVal.dict
                    [ ("status".data, PyVal.str "success".data),
                      ("index".data, PyVal.int 2),
                      ("action".data, PyVal.str "reset".data) ] ]) ],
           [ ⟨"rider_pi_happy_dance".data, [], "mcp_5".data⟩,
             ⟨"rider_pi_reset".data, [], "mcp_5".data⟩ ]) :=
  ⟨execSeqLoop_shape jl envs, rfl⟩

theorem C5_partial_failure_tolerated_witness :
    execSeqLoop jlEmpty (fun _ => envC5)
        [⟨Option.none, Option.none, Option.none, Option.none, Option.none⟩] 0 0
      = Except.ok ([noActionDict 0], 0, 1, []) ∧
    ([noActionDict 0] : List PyVal).length = 1 :=
  ⟨rfl,
   ((C5_partial_failure_tolerated jlEmpty (fun _ => envC5)).1
      [⟨Option.none, Option.none, Option.none, Option.none, Option.none⟩]
      0 0 [noActionDict 0] 0 1 [] rfl).1⟩

/-- The summary a completed one-step run produces when the single dispatch
times out: status "partial", 0 successful, 1 failed. -/
def timeoutStepSummary : PyVal :=
  PyVal.dict
    [ ("status".data, PyVal.str "partial".data),
      ("message".data, PyVal.str
        "Sequenz abgeschlossen: 0/1 erfolgreich, 1 fehlgeschlagen".data),
      ("total_actions".data, PyVal.int 1),
      ("successful".data, PyVal.int 0),
      ("failed".data, PyVal.int 1),
      ("results".data, PyVal.list
        [ PyVal.dict
            [ ("status".data, PyVal.str "error".data),
              ("message".data, PyVal.str
                ("Timeout nach ".data ++ (toString COMMAND_TIMEOUT).data
                  ++ "s. Der Command wird möglicherweise noch ausgeführt.".data)),
              ("index".data, PyVal.int 0),
              ("action".data, PyVal.str "reset".data) ] ]) ]

/-- C6: every summary a completed sequence run returns has status "success"
or "partial" — never "error" — and "success" exactly when the failed count
is zero; the only pre-flight error is the empty or missing sequence
argument, which is returned with zero frames submitted to the transport. -/
theorem C6_summary_never_error (jl : Str → Option PyVal)
    (envs : Nat → DispatchEnv) :
    (∀ steps d v cs, executeSequence jl envs steps d = Except.ok (v, cs) →
      (statusStrOf v = some "success".data ∨ statusStrOf v = some "partial".data) ∧
      (statusStrOf v = some "success".data ↔ fieldInt v "failed".data = some 0)) ∧
    (∀ height roll enabled period d,
      rider_pi_tool jl envs "sequence".data height roll enabled period
          (some []) d = Except.ok (seqNeededDict, []) ∧
      rider_pi_tool jl envs "sequence".data height roll enabled period
          Option.none d = Except.ok (seqNeededDict, [])) ∧
    statusStrOf seqNeededDict = some "error".data := by
  refine ⟨?_, fun height roll enabled period d => ⟨rfl, rfl⟩, rfl⟩
  intro steps d v cs h
  cases hrec : execSeqLoop jl envs steps 0 0 with
  | error e =>
    rw [executeSequence, hrec] at h
    cases h
  | ok out =>
    obtain ⟨rs, s, f, cs'⟩ := out
    rw [executeSequence, hrec] at h
    simp only [Except.ok.injEq, Prod.mk.injEq] at h
    obtain ⟨hv, hcs⟩ := h
    subst hv
    have hstat : statusStrOf (PyVal.dict
        [ ("status".data, PyVal.str (if f = 0 then "success".data else "partial".data)),
          ("message".data, PyVal.str (summaryMsg s steps.length f)),
          ("total_actions".data, PyVal.int (steps.length : Int)),
          ("successful".data, PyVal.int (s : Int)),
          ("failed".data, PyVal.int (f : Int)),
          ("results".data, PyVal.list rs) ])
        = some (if f = 0 then "success".data else "partial".data) := rfl
    have hfail : fieldInt (PyVal.dict
        [ ("status".data, PyVal.str (if f = 0 then "success".data else "partial".data)),
          ("message".data, PyVal.str (summaryMsg s steps.length f)),
          ("total_actions".data, PyVal.int (steps.length : Int)),
          ("successful".data, PyVal.int (s : Int)),
          ("failed".data, PyVal.int (f : Int)),
          ("results".data, PyVal.list rs) ]) "failed".data
        = some (f : Int) := rfl
    rw [hstat, hfail]
    by_cases hf : f = 0
    · subst hf
      exact ⟨Or.inl rfl, Iff.intro (fun _ => rfl) (fun _ => rfl)⟩
    · rw [if_neg hf]
      refine ⟨Or.inr rfl, Iff.intro (fun h' => absurd h' (by decide)) (fun h' => ?_)⟩
      exfalso
      apply hf
      have := Option.some.inj h'
      omega

theorem C6_summary_never_error_witness :
    (statusStrOf timeoutStepSummary = some "success".data ∨
      statusStrOf timeoutStepSummary = some "partial".data) ∧
    (statusStrOf timeoutStepSummary = some "success".data ↔
      fieldInt timeoutStepSummary "failed".data = some 0) :=
  (C6_summary_never_error jlEmpty
      (fun _ => ⟨5, SendOutcome.resp 200 "ok".data "m".data, []⟩)).1
    [mkStep "reset".data] 1 timeoutStepSummary
    [⟨"rider_pi_reset".data, [], "mcp_5".data⟩] rfl

/-- C7 (counterexample): the claim asserts that on any 2xx send response the
Waiter is invoked; but the dispatcher accepts only 200 and 201, so a 202
response (a 2xx status) yields an immediate error result even though the
pending polls hold a matching success frame the Waiter would have
returned. -/
theorem C7_counterexample :
    (200 ≤ 202 ∧ 202 < 300) ∧
    statusStrOf (sendMCPCommand jlStatusSuccess "c2".data
        (SendOutcome.resp 202 "Accepted".data "m".data)
        [some ["MCP_RESPONSE [c2] ```json\n\x7b\"status\": \"success\"\x7d\n```".data]])
      = some "error".data ∧
    statusStrOf (waitForResponse jlStatusSuccess "c2".data
        [some ["MCP_RESPONSE [c2] ```json\n\x7b\"status\": \"success\"\x7d\n```".data]])
      = some "success".data :=
  ⟨⟨by decide, by decide⟩, rfl, rfl⟩

/-- C7 (amended): a network error, or any send response whose status is not
200 and not 201 (which includes every other 2xx status), returns an error
result immediately whose value is independent of the poll outcomes — the
Waiter is not invoked; on a 200 or 201 response the dispatcher returns
exactly the Waiter's result. -/
theorem C7_send_failure_amended (jl : Str → Option PyVal) (rid : Str) :
    (∀ m polls polls2,
      sendMCPCommand jl rid (SendOutcome.netErr m) polls
        = sendMCPCommand jl rid (SendOutcome.netErr m) polls2 ∧
      statusStrOf (sendMCPCommand jl rid (SendOutcome.netErr m) polls)
        = some "error".data) ∧
    (∀ code text mid polls polls2, code ≠ 200 → code ≠ 201 →
      sendMCPCommand jl rid (SendOutcome.resp code text mid) polls
        = sendMCPCommand jl rid (SendOutcome.resp code text mid) polls2 ∧
      statusStrOf (sendMCPCommand jl rid (SendOutcome.resp code text mid) polls)
        = some "error".data) ∧
    (∀ code text mid polls, code = 200 ∨ code = 201 →
      sendMCPCommand jl rid (SendOutcome.resp code text mid) polls
        = waitForResponse jl rid polls) := by
  refine ⟨fun m polls polls2 => ⟨rfl, rfl⟩, ?_, ?_⟩
  · intro code text mid polls polls2 h1 h2
    have hc : ¬(code = 200 ∨ code = 201) := by tauto
    constructor
    · simp only [sendMCPCommand, if_neg hc]
    · simp only [sendMCPCommand, if_neg hc]
      rfl
  · intro code text mid polls h
    simp only [sendMCPCommand, if_pos h]

theorem C7_send_failure_amended_witness :
    sendMCPCommand jlEmpty "r3".data (SendOutcome.resp 500 "ERR".data "m".data) []
      = sendMCPCommand jlEmpty "r3".data (SendOutcome.resp 500 "ERR".data "m".data)
          [Option.none] ∧
    sendMCPCommand jlEmpty "r3".data (SendOutcome.resp 200 "ok".data "m".data) []
      = waitForResponse jlEmpty "r3".data [] :=
  ⟨((C7_send_failure_amended jlEmpty "r3".data).2.1 500 "ERR".data "m".data
      [] [Option.none] (by decide) (by decide)).1,
   (C7_send_failure_amended jlEmpty "r3".data).2.2 200 "ok".data "m".data []
     (Or.inl rfl)⟩

/-- C8 (counterexample): the claim asserts every call returns a dictionary
with an explicit status field; but a matched success frame's decoded payload
is returned verbatim (line 419), so a remote payload of `{"ok": true}` makes
the public entry point return a dictionary with no "status" key at all. -/
theorem C8_counterexample :
    rider_pi_tool jlOkTrue
        (fun _ => ⟨9, SendOutcome.resp 200 "ok".data "m".data,
          [some ["MCP_RESPONSE [mcp_9] ```json\n\x7b\"ok\": true\x7d\n```".data]]⟩)
        "happy_dance".data Option.none Option.none Option.none Option.none
        Option.none 1
      = Except.ok (PyVal.dict [("ok".data, PyVal.bool true)],
          [⟨"rider_pi_happy_dance".data, [], "mcp_9".data⟩]) ∧
    statusStrOf (PyVal.dict [("ok".data, PyVal.bool true)]) = Option.none :=
  ⟨rfl, rfl⟩

/-- C8 (amended): for the expected failure modes — unknown action (resolved
before any frame is sent), network error on send, rejected send status,
timeout (every poll failing until the deadline), a matched error frame, and
a missing sequence argument — the entry points return first-class result
dictionaries whose status field is "error" (and `list_actions` one with
status "success"); no fault is raised.  A matched success frame's decoded
payload, however, is returned verbatim and carries a status field only if
the remote sender included one. -/
theorem C8_failures_are_values_amended (jl : Str → Option PyVal)
    (envs : Nat → DispatchEnv) (height roll : Option Int)
    (enabled : Option Bool) (period : Option ℚ) :
    (∀ env2 action, lookupAction action = Option.none →
      statusStrOf (executeSingleAction jl env2 action
          height roll enabled period).1 = some "error".data ∧
      (executeSingleAction jl env2 action height roll enabled period).2 = []) ∧
    (∀ rid m polls, statusStrOf
        (sendMCPCommand jl rid (SendOutcome.netErr m) polls)
      = some "error".data) ∧
    (∀ rid code text mid polls, code ≠ 200 → code ≠ 201 →
      statusStrOf (sendMCPCommand jl rid (SendOutcome.resp code text mid) polls)
        = some "error".data) ∧
    (∀ rid n, waitForResponse jl rid (List.replicate n Option.none)
        = timeoutDict) ∧
    statusStrOf timeoutDict = some "error".data ∧
    (∀ content, statusStrOf (errorDict content) = some "error".data) ∧
    (∀ d, rider_pi_tool jl envs "sequence".data height roll enabled period
        Option.none d = Except.ok (seqNeededDict, [])) ∧
    statusStrOf seqNeededDict = some "error".data ∧
    statusStrOf listActionsDict = some "success".data := by
  refine ⟨?_, fun rid m polls => rfl, ?_, ?_, rfl, fun content => rfl,
    fun d => rfl, rfl, rfl⟩
  · intro env2 action h
    simp only [executeSingleAction, h]
    trivial
  · intro rid code text mid polls h1 h2
    have hc : ¬(code = 200 ∨ code = 201) := by tauto
    simp only [sendMCPCommand, if_neg hc]
    rfl
  · intro rid n
    induction n with
    | zero => rfl
    | succ n' ih => simpa [List.replicate, waitForResponse] using ih

theorem C8_failures_are_values_amended_witness :
    statusStrOf (executeSingleAction jlEmpty ⟨0, SendOutcome.netErr [], []⟩
        "fly".data Option.none Option.none Option.none Option.none).1
      = some "error".data ∧
    statusStrOf (sendMCPCommand jlEmpty "r4".data
        (SendOutcome.resp 404 "Not Found".data "m".data) [])
      = some "error".data ∧
    waitForResponse jlEmpty "r4".data (List.replicate 3 Option.none)
      = timeoutDict :=
  ⟨((C8_failures_are_values_amended jlEmpty
      (fun _ => ⟨0, SendOutcome.netErr [], []⟩)
      Option.none Option.none Option.none Option.none).1
      ⟨0, SendOutcome.netErr [], []⟩ "fly".data rfl).1,
   (C8_failures_are_values_amended jlEmpty
      (fun _ => ⟨0, SendOutcome.netErr [], []⟩)
      Option.none Option.none Option.none Option.none).2.2.1
      "r4".data 404 "Not Found".data "m".data [] (by decide) (by decide),
   (C8_failures_are_values_amended jlEmpty
      (fun _ => ⟨0, SendOutcome.netErr [], []⟩)
      Option.none Option.none Option.none Option.none).2.2.2.1 "r4".data 3⟩

/-- C9: the registry is never mutated — any resolution leaves every
previously allocated dictionary (the registry's defaults included) exactly
as it was, the store after a call restricted to the registry equals the
registry's initial store, and repeating an identical call on the store the
first call left behind resolves to the same capability id and an argument
dictionary with the same contents. -/
theorem C9_registry_never_mutated :
    (∀ store action height roll enabled period,
      ((resolveHeap store action height roll enabled period).2).take
          store.length = store) ∧
    (∀ action height roll enabled period,
      ((resolveHeap store0 action height roll enabled period).2).take
          store0.length = store0) ∧
    (∀ action height roll enabled period,
      (resolveHeap ((resolveHeap store0 action height roll enabled period).2)
          action height roll enabled period).1.map Prod.fst
        = (resolveHeap store0 action height roll enabled period).1.map Prod.fst ∧
      resolvedArgs ((resolveHeap store0 action height roll enabled period).2)
          action height roll enabled period
        = resolvedArgs store0 action height roll enabled period) :=
  ⟨fun store action height roll enabled period =>
      resolveHeap_preserves store action height roll enabled period,
   fun action height roll enabled period =>
      resolveHeap_preserves store0 action height roll enabled period,
   fun action height roll enabled period =>
      resolveHeap_deterministic action height roll enabled period⟩

/-- C10: a sequence step whose dictionary lacks an "action" key (or whose
value is falsy) is recorded as an error result named "unknown" carrying the
step's index, counts as one more failure, contributes no command frame and
consumes no dispatch, and the runner continues with the remaining steps. -/
theorem C10_missing_action_step (jl : Str → Option PyVal)
    (envs : Nat → DispatchEnv) (st : Step) (i k : Nat) (rest : List Step)
    (h : st.action.getD [] = []) :
    execSeqLoop jl envs (st :: rest) i k
      = (execSeqLoop jl envs rest (i + 1) k).map
          (fun out => (noActionDict i :: out.1, out.2.1, out.2.2.1 + 1, out.2.2.2)) ∧
    resultActionOf (noActionDict i) = some "unknown".data ∧
    resultIndexOf (noActionDict i) = some (i : Int) ∧
    statusStrOf (noActionDict i) = some "error".data := by
  refine ⟨?_, rfl, rfl, rfl⟩
  simp only [execSeqLoop, h, if_pos]
  cases execSeqLoop jl envs rest (i + 1) k with
  | error e => rfl
  | ok out => obtain ⟨rs, s, f, cs⟩ := out; rfl

theorem C10_missing_action_step_witness :
    execSeqLoop jlEmpty (fun _ => ⟨0, SendOutcome.netErr [], []⟩)
        [⟨Option.none, Option.none, Option.none, Option.none, Option.none⟩] 4 0
      = Except.ok ([noActionDict 4], 0, 1, []) :=
  (C10_missing_action_step jlEmpty (fun _ => ⟨0, SendOutcome.netErr [], []⟩)
    ⟨Option.none, Option.none, Option.none, Option.none, Option.none⟩ 4 0 [] rfl).1
